import Mathlib

/- Shallow embedding of the TALON insight pipeline:
   talon/insights_detector.py, talon/insights_ai.py,
   talon/insights_learning.py and talon/kb_updater.py.

   Modelling conventions.
   Timestamps: the Python code stores ISO-8601 strings and parses them with
   `_parse_datetime`; uniform well-formed ISO strings compare
   lexicographically exactly as they compare chronologically.  The embedding
   models a parsed timestamp as an integer number of minutes, and a missing
   or unparseable timestamp as `none` (covering both a falsy `dict.get`
   result and a `None` result of `_parse_datetime`).  Gap computations
   `(t2 - t1).total_seconds() / 3600` become `(t2 - t1) / 60` over `ℚ`.
   Human-readable rendering (strftime, float formatting) is abstracted by
   `fmtT`, `fmtQ`, `fmt0R`, `fmt1R`; no modelled computation inspects the
   rendered text.  Float arithmetic is idealised as exact arithmetic:
   `ℚ` in the detector and `ℝ` in the learning loop (which needs log10). -/

namespace Talon

/-- Rendering of a timestamp inside insight titles and descriptions
(abstracts strftime). -/
def fmtT (t : ℤ) : String := toString t

/-- Rendering of a rational number with one decimal digit inside
descriptions (abstracts Python float formatting). -/
def fmtQ (q : ℚ) : String := toString q

structure Action where
  label : String
  action : String
  params : List (String × String)
deriving Repr, DecidableEq

structure Insight where
  id : String
  type : String
  severity : String
  title : String
  description : String
  actions : List Action
deriving Repr, DecidableEq

/-- One itinerary element row, restricted to the fields the detector reads. -/
structure Element where
  id : String
  type : String
  name : Option String
  start_time : Option ℤ
  end_time : Option ℤ
deriving Repr, DecidableEq

/-- Trip summary, restricted to the fields the detector reads. -/
structure Trip where
  start_date : Option ℤ
  end_date : Option ℤ
deriving Repr, DecidableEq

/-- Ordering of the keys used by Python min and max in the detector: the
code uses `e.get` with an empty-string default as key, and the empty
string (missing timestamp) sorts before every ISO timestamp string. -/
def keyLt : Option ℤ → Option ℤ → Bool
  | none, none => false
  | none, some _ => true
  | some _, none => false
  | some a, some b => decide (a < b)

/-- Python `min(x :: xs, key = k)`: the first element with minimal key. -/
def minByKey (k : α → Option ℤ) (x : α) (xs : List α) : α :=
  xs.foldl (fun best y => if keyLt (k y) (k best) then y else best) x

/-- Python `max(x :: xs, key = k)`: the first element with maximal key. -/
def maxByKey (k : α → Option ℤ) (x : α) (xs : List α) : α :=
  xs.foldl (fun best y => if keyLt (k best) (k y) then y else best) x

/- Category lists from `InsightsDetector.__init__`.  They filter the raw
constructor argument `elements` (not the sorted `self.elements`, which no
detection method reads), so input order is preserved. -/

def accommodations (es : List Element) : List Element :=
  es.filter (fun e => e.type == "accommodation")

def flights (es : List Element) : List Element :=
  es.filter (fun e => e.type == "flight")

def transportation (es : List Element) : List Element :=
  es.filter (fun e => e.type == "transportation")

def dining (es : List Element) : List Element :=
  es.filter (fun e => e.type == "dining")

def activities (es : List Element) : List Element :=
  es.filter (fun e => e.type == "activity")

def dismissAction : Action := ⟨"Dismiss", "dismiss", []⟩

/-- Embedding of `InsightsDetector._detect_accommodation_gaps`. -/
def detect_accommodation_gaps (trip : Trip) (es : List Element) : List Insight :=
  match accommodations es with
  | [] => []
  | a0 :: arest =>
    match trip.start_date, trip.end_date with
    | some trip_start, some trip_end =>
      let arrival_time : ℤ :=
        match flights es with
        | [] => trip_start
        | f0 :: frest =>
          match (minByKey (fun f => f.end_time) f0 frest).end_time with
          | some v => v
          | none => trip_start
      let departure_time : ℤ :=
        match flights es with
        | [] => trip_end
        | f0 :: frest =>
          match (maxByKey (fun f => f.start_time) f0 frest).start_time with
          | some v => v
          | none => trip_end
      let first_hotel := minByKey (fun a => a.start_time) a0 arest
      let arrivalPart : List Insight :=
        match first_hotel.start_time with
        | none => []
        | some first_checkin =>
          let gap_hours : ℚ := ((first_checkin - arrival_time : ℤ) : ℚ) / 60
          if 6 < gap_hours then
            [{ id := "accommodation_gap_arrival"
               type := "accommodation_gap"
               severity := "critical"
               title := "Missing accommodation (" ++ fmtT arrival_time ++ ")"
               description := "You arrive " ++ fmtT arrival_time ++
                 " but hotel check-in is " ++ fmtT first_checkin ++
                 ". Need lodging for " ++ toString ⌊gap_hours⌋ ++ " hours."
               actions := [⟨"Extend Current Hotel", "extend_booking", [("element_id", first_hotel.id)]⟩,
                           ⟨"Add Hotel", "search_hotels", []⟩, dismissAction] }]
          else []
      let last_hotel := maxByKey (fun a => a.end_time) a0 arest
      let departurePart : List Insight :=
        match last_hotel.end_time with
        | none => []
        | some last_checkout =>
          let gap_hours : ℚ := ((departure_time - last_checkout : ℤ) : ℚ) / 60
          if 6 < gap_hours then
            [{ id := "accommodation_gap_departure"
               type := "accommodation_gap"
               severity := "critical"
               title := "Accommodation gap before departure"
               description := "Hotel checkout is " ++ fmtT last_checkout ++
                 " but departure is " ++ fmtT departure_time ++ ". " ++
                 toString ⌊gap_hours⌋ ++ " hour gap."
               actions := [⟨"Extend Current Hotel", "extend_booking", [("element_id", last_hotel.id)]⟩,
                           ⟨"Add Day Room", "search_hotels", []⟩, dismissAction] }]
          else []
      arrivalPart ++ departurePart
    | _, _ => []

/-- Python iteration `for i, x in enumerate(l): for y in l[i+1:]`. -/
def ordPairs : List α → List (α × α)
  | [] => []
  | x :: xs => (xs.map (fun y => (x, y))) ++ ordPairs xs

/-- Embedding of `InsightsDetector._bookings_conflict`. -/
def bookings_conflict (b1 b2 : Element) : Bool :=
  match b1.start_time, b1.end_time, b2.start_time, b2.end_time with
  | some s1, some e1, some s2, some e2 => decide (s1 < e2) && decide (s2 < e1)
  | _, _, _, _ => false

/-- Embedding of `InsightsDetector._detect_conflicting_primary_bookings`. -/
def detect_conflicting_primary_bookings (es : List Element) : List Insight :=
  ((ordPairs (accommodations es)).filterMap (fun p =>
    if bookings_conflict p.1 p.2 then
      some { id := "conflicting_hotels_" ++ p.1.id ++ "_" ++ p.2.id
             type := "conflicting_booking"
             severity := "critical"
             title := "Conflicting hotel bookings"
             description := (p.1.name.getD "Hotel 1") ++ " and " ++
               (p.2.name.getD "Hotel 2") ++ " overlap on the same dates."
             actions := [⟨"Review Bookings", "review", []⟩, dismissAction] }
    else none))
  ++ ((ordPairs (flights es)).filterMap (fun p =>
    if bookings_conflict p.1 p.2 then
      some { id := "conflicting_flights_" ++ p.1.id ++ "_" ++ p.2.id
             type := "conflicting_booking"
             severity := "critical"
             title := "Conflicting flight bookings"
             description := "Two flights booked at overlapping times."
             actions := [⟨"Review Flights", "review", []⟩, dismissAction] }
    else none))

/-- Embedding of `InsightsDetector._detect_missing_airport_transportation`. -/
def detect_missing_airport_transportation (es : List Element) : List Insight :=
  match flights es, accommodations es with
  | f0 :: frest, a0 :: arest =>
    match (minByKey (fun f => f.end_time) f0 frest).end_time with
    | none => []
    | some flight_arrival =>
      let first_hotel := minByKey (fun a => a.start_time) a0 arest
      let has_transport := (transportation es).any (fun t =>
        match t.start_time with
        | some s => decide (|(((s - flight_arrival : ℤ) : ℚ)) / 60| < 4)
        | none => false)
      if !has_transport && (first_hotel.start_time).isSome then
        [{ id := "missing_airport_transport"
           type := "missing_transportation"
           severity := "critical"
           title := "No airport transportation scheduled"
           description := "Flight lands at " ++ fmtT flight_arrival ++
             " but no Uber/rental/shuttle booked to hotel."
           actions := [⟨"Add Transportation", "add_element", [("type", "transportation")]⟩,
                       dismissAction] }]
      else []
  | _, _ => []

/-- Embedding of `InsightsDetector._detect_impossible_logistics`. -/
def detect_impossible_logistics (es : List Element) : List Insight :=
  match flights es with
  | [] => []
  | f0 :: frest =>
    match (minByKey (fun f => f.end_time) f0 frest).end_time with
    | none => []
    | some arrival =>
      (dining es ++ activities es).filterMap (fun el =>
        match el.start_time with
        | some event_time =>
          if event_time < arrival then
            some { id := "impossible_timing_" ++ el.id
                   type := "impossible_logistics"
                   severity := "critical"
                   title := (el.name.getD "Event") ++ " before arrival"
                   description := "You have " ++ (el.name.getD "None") ++
                     " scheduled at " ++ fmtT event_time ++
                     " but you do not arrive until " ++ fmtT arrival ++ "."
                   actions := [⟨"Reschedule", "edit_element", [("element_id", el.id)]⟩,
                               ⟨"Delete", "delete_element", [("element_id", el.id)]⟩,
                               dismissAction] }
          else none
        | none => none)

/-- The single insight `_detect_tight_timing` can emit. -/
def tight_timing_insight (last_hotel : Element) (checkout flight_time : ℤ) : Insight :=
  let gap_hours : ℚ := ((flight_time - checkout : ℤ) : ℚ) / 60
  { id := "tight_timing_checkout_flight"
    type := "tight_timing"
    severity := "warning"
    title := "Tight timing on departure day"
    description := "Checkout at " ++ fmtT checkout ++ ", flight at " ++
      fmtT flight_time ++ " - only " ++ fmtQ gap_hours ++
      " hours. Consider early checkout or later flight."
    actions := [⟨"Adjust Checkout", "edit_element", [("element_id", last_hotel.id)]⟩,
                dismissAction] }

/-- Embedding of `InsightsDetector._detect_tight_timing`. -/
def detect_tight_timing (es : List Element) : List Insight :=
  match accommodations es, flights es with
  | a0 :: arest, f0 :: frest =>
    let last_hotel := maxByKey (fun a => a.end_time) a0 arest
    let checkout := last_hotel.end_time
    let departure_flights : List Element :=
      match checkout with
      | none => []
      | some c => (f0 :: frest).filter (fun f =>
          match f.start_time with
          | some s => decide (c < s)
          | none => false)
    match departure_flights with
    | [] => []
    | d0 :: drest =>
      let next_flight := minByKey (fun f => f.start_time) d0 drest
      match checkout, next_flight.start_time with
      | some c, some ft =>
        let gap_hours : ℚ := ((ft - c : ℤ) : ℚ) / 60
        if 1 < gap_hours ∧ gap_hours < 3 then
          [tight_timing_insight last_hotel c ft]
        else []
      | _, _ => []
  | _, _ => []

/-- Embedding of `InsightsDetector._detect_missing_meals`.  The trip-day
count `(trip_end - trip_start).days` floors toward negative infinity, as
`timedelta.days` does; one day is 1440 minutes. -/
def detect_missing_meals (trip : Trip) (es : List Element) : List Insight :=
  match trip.start_date, trip.end_date with
  | some trip_start, some trip_end =>
    let trip_days : ℤ := (trip_end - trip_start).fdiv 1440
    if 2 ≤ trip_days ∧ (dining es).length = 0 then
      [{ id := "missing_meals"
         type := "missing_element"
         severity := "info"
         title := "No dining reservations"
         description := toString trip_days ++
           "-day trip with no restaurant reservations. Consider planning meals in advance."
         actions := [⟨"Add Dining", "add_element", [("type", "dining")]⟩, dismissAction] }]
    else []
  | _, _ => []

/-- The three output buckets of the pipeline. -/
structure Buckets where
  action_required : List Insight
  recommendations : List Insight
  good_to_know : List Insight
deriving Repr, DecidableEq

/-- Embedding of `InsightsDetector.analyze`. -/
def analyze (trip : Trip) (es : List Element) : Buckets :=
  { action_required :=
      detect_accommodation_gaps trip es ++
      detect_conflicting_primary_bookings es ++
      detect_missing_airport_transportation es ++
      detect_impossible_logistics es
    recommendations := detect_tight_timing es ++ detect_missing_meals trip es
    good_to_know := [] }

/- ------------------------------------------------------------------
   talon/insights_ai.py
   ------------------------------------------------------------------ -/

/-- The two insight lists a well-formed completion-service response
carries. -/
structure AiBatch where
  recommendations : List Insight
  good_to_know : List Insight
deriving Repr, DecidableEq

/-- Embedding of `InsightsAI._parse_ai_response`.  The external
`json.loads` plus shape extraction is modelled by its result: `some batch`
for a well-formed response, `none` for a `JSONDecodeError`, in which case
the method returns two empty lists. -/
def parse_ai_response (decoded : Option AiBatch) : AiBatch :=
  match decoded with
  | some b => b
  | none => ⟨[], []⟩

/-- Outcome of the completion-service call inside `analyze_itinerary`:
`noClient` when no credential is configured (`self.client is None`),
`apiError` when the call raises (caught by the surrounding `except`), and
`ok decoded` when text came back, with `decoded` the `json.loads` result. -/
inductive ServiceOutcome where
  | noClient : ServiceOutcome
  | apiError : ServiceOutcome
  | ok : Option AiBatch → ServiceOutcome

/-- Embedding of `InsightsAI._merge_insights`.  `existing_titles` is the set
of lowercased titles of the merged recommendations so far; an AI
recommendation is appended only when its lowercased title is non-empty
(Python truthiness) and not already present. -/
def merge_insights (base : Buckets) (ai : AiBatch) : Buckets :=
  let start : List Insight × List String :=
    (base.recommendations, base.recommendations.map (fun i => i.title.toLower))
  let merged := ai.recommendations.foldl (fun st r =>
      let t := r.title.toLower
      if t ≠ "" ∧ ¬ (t ∈ st.2) then (st.1 ++ [r], st.2 ++ [t]) else st) start
  { action_required := base.action_required
    recommendations := merged.1
    good_to_know := base.good_to_know ++ ai.good_to_know }

/-- Embedding of `InsightsAI.analyze_itinerary`: without a client, or when
the API call raises, the base insights are returned unchanged; otherwise
the parsed response is merged into the base insights. -/
def analyze_itinerary (outcome : ServiceOutcome) (base : Buckets) : Buckets :=
  match outcome with
  | .noClient => base
  | .apiError => base
  | .ok decoded => merge_insights base (parse_ai_response decoded)

/- ------------------------------------------------------------------
   talon/insights_learning.py
   ------------------------------------------------------------------ -/

/-- One `insights_feedback` row, restricted to the fields the learning
computations read.  The write-only columns (`action_details`, `action_at`,
trip-context snapshot) are metadata never read back by the modelled code
and are omitted. -/
structure Feedback where
  user_id : String
  trip_id : String
  insight_id : String
  insight_type : String
  insight_category : String
  action_taken : String
  helpful : Option Bool
  accurate : Option Bool
  rating : Option ℤ
  user_comment : Option String
deriving Repr, DecidableEq

/-- The natural key of the feedback store. -/
def sameKey (r x : Feedback) : Bool :=
  r.user_id == x.user_id && r.trip_id == x.trip_id && r.insight_id == x.insight_id

/-- Modelled from the spec: the persistence layer behind the upsert on the
`insights_feedback` table.  The repository contains no schema for that
table, so the key of the upsert is not in the source; spec section 3
states that a given (user, trip, insight) tuple is idempotently
overwritten, never duplicated, and section 6 calls the store an
upsert-by-key row store.  An upsert of row `r` therefore replaces the rows
carrying the key of `r` in place, and appends `r` when no such row
exists. -/
def upsertFeedback (r : Feedback) (s : List Feedback) : List Feedback :=
  if s.any (sameKey r) then s.map (fun x => if sameKey r x then r else x)
  else s ++ [r]

/-- Embedding of `InsightsLearning.record_feedback`: builds the feedback row
and upserts it into the `insights_feedback` store.  The milestone check
`_check_and_trigger_analysis` it triggers only recomputes the derived
`insights_patterns` table and never writes the feedback store, so the store
after the call is exactly the upsert result. -/
def record_feedback (r : Feedback) (s : List Feedback) : List Feedback :=
  upsertFeedback r s

/- Per-category statistics of `_calculate_pattern_metrics`, written as
functions of the feedback list. -/

def total_dismissed (fbs : List Feedback) : ℕ :=
  fbs.countP (fun f => f.action_taken == "dismissed")

def total_acted (fbs : List Feedback) : ℕ :=
  fbs.countP (fun f => f.action_taken == "acted")

def ratings (fbs : List Feedback) : List ℤ :=
  fbs.filterMap (fun f => f.rating)

def total_rated (fbs : List Feedback) : ℕ :=
  fbs.countP (fun f => f.rating.isSome)

noncomputable def acceptance_rate (fbs : List Feedback) : ℝ :=
  if 0 < fbs.length then (total_acted fbs : ℝ) / (fbs.length : ℝ) * 100 else 0

noncomputable def dismissal_rate (fbs : List Feedback) : ℝ :=
  if 0 < fbs.length then (total_dismissed fbs : ℝ) / (fbs.length : ℝ) * 100 else 0

noncomputable def average_rating (fbs : List Feedback) : Option ℝ :=
  if (ratings fbs).isEmpty then none
  else some (((ratings fbs).sum : ℝ) / ((ratings fbs).length : ℝ))

def helpful_count (fbs : List Feedback) : ℕ :=
  fbs.countP (fun f => f.helpful == some true)

def accurate_count (fbs : List Feedback) : ℕ :=
  fbs.countP (fun f => f.accurate == some true)

noncomputable def helpful_percentage (fbs : List Feedback) : ℝ :=
  if 0 < fbs.length then (helpful_count fbs : ℝ) / (fbs.length : ℝ) * 100 else 0

noncomputable def accurate_percentage (fbs : List Feedback) : ℝ :=
  if 0 < fbs.length then (accurate_count fbs : ℝ) / (fbs.length : ℝ) * 100 else 0

/-- Embedding of `InsightsLearning._calculate_confidence`.  The `acceptance`
and `helpful` arguments keep the `is not None` guards of the source even
though every caller passes a number for them. -/
noncomputable def calculate_confidence (sample_size : ℕ) (acceptance : Option ℝ)
    (average : Option ℝ) (helpful : Option ℝ) : ℝ :=
  let size_confidence := min 90 (30 + 20 * Real.logb 10 ((sample_size : ℝ) + 1))
  let performance_scores : List ℝ :=
    (match acceptance with
     | some a => [max a (100 - a)]
     | none => []) ++
    (match average with
     | some r => [(r - 1) / 4 * 100]
     | none => []) ++
    (match helpful with
     | some h => [h]
     | none => [])
  let performance_confidence :=
    if performance_scores.isEmpty then 50
    else performance_scores.sum / (performance_scores.length : ℝ)
  min 100 (max 0 (size_confidence * 0.6 + performance_confidence * 0.4))

/-- The confidence value `_calculate_pattern_metrics` computes for a
feedback list (every call site passes numbers for the acceptance rate and
the helpful percentage, and the optional average rating). -/
noncomputable def confidence_of (fbs : List Feedback) : ℝ :=
  calculate_confidence fbs.length (some (acceptance_rate fbs))
    (average_rating fbs) (some (helpful_percentage fbs))

/-- Embedding of `InsightsLearning._determine_recommendation`. -/
noncomputable def determine_recommendation (acceptance dismissal : ℝ)
    (average : Option ℝ) (confidence : ℝ) : String :=
  if confidence < 60 then "keep"
  else if acceptance > 80 then "upgrade"
  else if acceptance < 20 then
    if dismissal > 70 then "disable" else "downgrade"
  else
    match average with
    | some r => if 4.0 ≤ r then "upgrade" else if r < 2.0 then "downgrade" else "keep"
    | none => "keep"

/-- Python `round(x, 2)` (round half to even), idealised over ℝ. -/
noncomputable def round2 (x : ℝ) : ℝ :=
  if x * 100 - ⌊x * 100⌋ < 1 / 2 then (⌊x * 100⌋ : ℝ) / 100
  else if 1 / 2 < x * 100 - ⌊x * 100⌋ then ((⌊x * 100⌋ : ℝ) + 1) / 100
  else (if Even ⌊x * 100⌋ then (⌊x * 100⌋ : ℝ) else (⌊x * 100⌋ : ℝ) + 1) / 100

/-- One `insights_patterns` row.  The `last_calculated_at` wall-clock stamp
is metadata, not an input of any computation, and is omitted. -/
structure Pattern where
  insight_category : String
  insight_type : String
  total_shown : ℕ
  total_dismissed : ℕ
  total_acted : ℕ
  total_rated : ℕ
  acceptance_rate : ℝ
  dismissal_rate : ℝ
  average_rating : Option ℝ
  helpful_percentage : ℝ
  accurate_percentage : ℝ
  confidence_score : ℝ
  recommendation : String
  auto_apply : Bool
  sample_size : ℕ

/-- Embedding of `InsightsLearning._calculate_pattern_metrics`.  The stored
rates are rounded to two decimals; the recommendation and the auto-apply
flag are computed from the unrounded values, exactly as in the source.  The
stored average rating keeps the Python truthiness test
`round(average_rating, 2) if average_rating else None`. -/
noncomputable def calculate_pattern_metrics (category : String)
    (fbs : List Feedback) : Pattern :=
  { insight_category := category
    insight_type := match fbs with
      | [] => "recommendations"
      | f :: _ => f.insight_type
    total_shown := fbs.length
    total_dismissed := total_dismissed fbs
    total_acted := total_acted fbs
    total_rated := total_rated fbs
    acceptance_rate := round2 (acceptance_rate fbs)
    dismissal_rate := round2 (dismissal_rate fbs)
    average_rating := match average_rating fbs with
      | none => none
      | some r => if r = 0 then none else some (round2 r)
    helpful_percentage := round2 (helpful_percentage fbs)
    accurate_percentage := round2 (accurate_percentage fbs)
    confidence_score := round2 (confidence_of fbs)
    recommendation := determine_recommendation (acceptance_rate fbs)
      (dismissal_rate fbs) (average_rating fbs) (confidence_of fbs)
    auto_apply := decide (acceptance_rate fbs > 80) && decide (confidence_of fbs > 80)
    sample_size := fbs.length }

/-- Rendering of a float with no decimal digits in learning texts (abstracts
Python float formatting; the rendered text is never inspected). -/
noncomputable def fmt0R (x : ℝ) : String := toString ⌊x⌋

/-- Rendering of a float with one decimal digit in learning texts (abstracts
Python float formatting; the rendered text is never inspected). -/
noncomputable def fmt1R (x : ℝ) : String := toString ⌊x * 10⌋

/-- Insertion-order tally of `action_taken` values (a Python dict counts in
first-seen key order). -/
def tallyActions (fbs : List Feedback) : List (String × ℕ) :=
  fbs.foldl (fun acc f =>
    if acc.any (fun p => p.1 == f.action_taken)
    then acc.map (fun p => if p.1 == f.action_taken then (p.1, p.2 + 1) else p)
    else acc ++ [(f.action_taken, 1)]) []

/-- Embedding of `InsightsLearning._get_common_actions`: action counts
sorted by descending count (Python `sorted` is stable, ties keep first-seen
order). -/
def get_common_actions (fbs : List Feedback) : List (String × ℕ) :=
  (tallyActions fbs).mergeSort (fun p q => decide (q.2 ≤ p.2))

/-- Embedding of `InsightsLearning._generate_rule_yaml`.  Returns `none`
when the pattern's `average_rating` is null: the f-string
`.1f` conversion then raises `TypeError`.  The text layout is abbreviated;
no modelled computation inspects it. -/
noncomputable def generate_rule_yaml (category : String) (pattern : Pattern) :
    Option String :=
  match pattern.average_rating with
  | none => none
  | some r => some ("#### Rule: " ++ category ++
      "\ntrigger: insights_analysis\ncondition: pattern_confidence > " ++
      fmt0R pattern.confidence_score ++ " acceptance_rate = " ++
      fmt0R pattern.acceptance_rate ++ "% average_rating = " ++ fmt1R r ++
      "/5\naction: " ++ pattern.recommendation ++ "\npriority: " ++
      (if pattern.recommendation = "upgrade" then "high"
       else if pattern.recommendation = "downgrade" then "low" else "medium") ++
      "\nauto_apply: " ++ (if pattern.auto_apply then "true" else "false") ++
      "\nlearned_from: " ++ toString pattern.sample_size ++ " user interactions")

/-- One `kb_learnings` row as written by `_consider_kb_learning`. -/
structure Learning where
  learning_type : String
  category : String
  title : String
  description : String
  rule_yaml : String
  evidence_metrics : Pattern
  sample_comments : List String
  common_actions : List (String × ℕ)
  confidence_score : ℝ
  sample_size : ℕ
  status : String
  kb_section : String

/-- The evidence comments: truthy (non-empty) user comments, first five. -/
def sample_comments_of (fbs : List Feedback) : List String :=
  (fbs.filterMap (fun f =>
    match f.user_comment with
    | some c => if c = "" then none else some c
    | none => none)).take 5

/-- Embedding of `InsightsLearning._consider_kb_learning`.  Returns the row
inserted into `kb_learnings`, or `none` when nothing is inserted.  When the
pattern's `average_rating` is null, the upgrade branch raises `TypeError`
while formatting the description (`.1f` on `None`), and the disable branch
raises inside `_generate_rule_yaml`; the surrounding `except` swallows the
error and no row is inserted, which the model renders as `none`. -/
noncomputable def consider_kb_learning (category : String) (pattern : Pattern)
    (fbs : List Feedback) : Option Learning :=
  if pattern.confidence_score < 70 then none
  else if pattern.recommendation = "upgrade" then
    match pattern.average_rating with
    | none => none
    | some r =>
      match generate_rule_yaml category pattern with
      | none => none
      | some y =>
        some { learning_type := "rule_adjustment"
               category := category
               title := "Upgrade " ++ category ++ " to higher priority"
               description := "Users accept this insight " ++
                 fmt0R pattern.acceptance_rate ++ "% of the time with " ++
                 fmt1R r ++ "/5 rating. Consider making it more prominent."
               rule_yaml := y
               evidence_metrics := pattern
               sample_comments := sample_comments_of fbs
               common_actions := get_common_actions fbs
               confidence_score := pattern.confidence_score
               sample_size := pattern.sample_size
               status := "pending"
               kb_section := "LEARNING & IMPROVEMENT" }
  else if pattern.recommendation = "disable" then
    match generate_rule_yaml category pattern with
    | none => none
    | some y =>
      some { learning_type := "rule_adjustment"
             category := category
             title := "Disable or revise " ++ category ++ " detection"
             description := "Users dismiss this insight " ++
               fmt0R pattern.dismissal_rate ++
               "% of the time. Consider disabling or improving the detection logic."
             rule_yaml := y
             evidence_metrics := pattern
             sample_comments := sample_comments_of fbs
             common_actions := get_common_actions fbs
             confidence_score := pattern.confidence_score
             sample_size := pattern.sample_size
             status := "pending"
             kb_section := "LEARNING & IMPROVEMENT" }
  else none

/-- The per-category body of `InsightsLearning.analyze_patterns`: the
pattern row upserted into `insights_patterns`, and the `kb_learnings` row
inserted, if any (`_consider_kb_learning` runs only when the stored
confidence score is at least 70). -/
noncomputable def analyze_category (category : String) (fbs : List Feedback) :
    Pattern × Option Learning :=
  let pattern := calculate_pattern_metrics category fbs
  (pattern,
   if 70 ≤ pattern.confidence_score then consider_kb_learning category pattern fbs
   else none)

/- ------------------------------------------------------------------
   talon/kb_updater.py
   ------------------------------------------------------------------ -/

/-- One approved-and-unapplied `kb_learnings` row as the updater reads it
back, restricted to the fields `_format_learning_entry` renders. -/
structure LearningRow where
  id : String
  title : String
  category : String
  confidence_score : ℝ
  sample_size : ℕ
  description : String
  rule_yaml : String
  created_at : Option String
  evidence_metrics : Pattern
  sample_comments : List String

/-- The externally visible operations `update_kb_with_learnings` performs,
in program order: `markApplied` is the database update setting
`applied_to_kb = True` (with its timestamp) for one learning, `writeBackup`
is the write of the timestamped backup file (whose content is the original
document, re-read via `_read_original_kb` before the main write), and
`writeMain` is the write of the updated document. -/
inductive KbEvent where
  | markApplied : String → KbEvent
  | writeBackup : KbEvent
  | writeMain : KbEvent
deriving Repr, DecidableEq

/-- The section marker `_apply_learning_to_kb` searches for (the regular
expression contains no metacharacters, so the search is a plain first
substring occurrence). -/
def KB_MARKER : String := "## LEARNING & IMPROVEMENT"

/-- Index of the first occurrence of `pat` in a character list. -/
def find_sub (pat : List Char) : List Char → Option ℕ
  | [] => if pat.isEmpty then some 0 else none
  | c :: rest =>
    if pat.isPrefixOf (c :: rest) then some 0
    else (find_sub pat rest).map (fun i => i + 1)

/-- Embedding of `KnowledgeBaseUpdater._format_comments`. -/
def format_comments (comments : List String) : String :=
  if comments.isEmpty then "_No comments provided_"
  else String.intercalate "\n"
    ((comments.take 3).enum.map (fun p => toString (p.1 + 1) ++ ". " ++ p.2))

/-- Embedding of `KnowledgeBaseUpdater._format_learning_entry`.  Returns
`none` when the evidence metrics hold a null `average_rating`: the `.1f`
conversion on `None` then raises `TypeError`, which `_apply_learning_to_kb`
catches as a failure.  (Rows produced by `_consider_kb_learning` always
carry a numeric average rating, so the failure is unreachable for them.)
The text layout is abbreviated; no modelled computation inspects it. -/
noncomputable def format_learning_entry (l : LearningRow) : Option String :=
  match l.evidence_metrics.average_rating with
  | none => none
  | some r => some ("### LEARNED PATTERN: " ++ l.title ++
      "\nCategory: " ++ l.category ++
      "\nConfidence: " ++ fmt0R l.confidence_score ++ "%" ++
      "\nSample Size: " ++ toString l.sample_size ++ " user interactions" ++
      "\nLearned: " ++ (l.created_at.getD "Unknown") ++
      "\n\nDescription:\n" ++ l.description ++
      "\n\nEvidence:\n- Acceptance Rate: " ++ fmt0R l.evidence_metrics.acceptance_rate ++
      "%\n- Dismissal Rate: " ++ fmt0R l.evidence_metrics.dismissal_rate ++
      "%\n- Average Rating: " ++ fmt1R r ++
      "/5\n- Helpful: " ++ fmt0R l.evidence_metrics.helpful_percentage ++
      "%\n- Accurate: " ++ fmt0R l.evidence_metrics.accurate_percentage ++
      "%\n\nUser Comments:\n" ++ format_comments l.sample_comments ++
      "\n\nRecommendation: " ++ l.evidence_metrics.recommendation ++
      "\n\n" ++ l.rule_yaml ++ "\n\n---\n")

/-- Embedding of `KnowledgeBaseUpdater._apply_learning_to_kb`: finds the
section marker, renders the entry and inserts it right after the marker.
Returns the (possibly unchanged) content and the success flag. -/
noncomputable def apply_learning_to_kb (kb : String) (l : LearningRow) :
    String × Bool :=
  match find_sub KB_MARKER.data kb.data with
  | none => (kb, false)
  | some idx =>
    match format_learning_entry l with
    | none => (kb, false)
    | some entry =>
      let insertion_point := idx + KB_MARKER.length
      (⟨kb.data.take insertion_point ++ ("\n\n" ++ entry).data ++
        kb.data.drop insertion_point⟩, true)

/-- The loop body of `update_kb_with_learnings`.  State: current document
content, applied count, applied-learning summaries (id, title, category)
and the event trace so far.  On success the database update marking the
learning applied happens here, inside the loop, when `dry_run` is false. -/
noncomputable def kb_step (dry_run : Bool)
    (st : String × ℕ × List (String × String × String) × List KbEvent)
    (l : LearningRow) : String × ℕ × List (String × String × String) × List KbEvent :=
  match st with
  | (kb, n, ids, tr) =>
    let res := apply_learning_to_kb kb l
    if res.2 then
      (res.1, n + 1, ids ++ [(l.id, l.title, l.category)],
       tr ++ (if dry_run then [] else [KbEvent.markApplied l.id]))
    else (kb, n, ids, tr)

/-- Result summary of `update_kb_with_learnings`, plus the event trace and
the final document content. -/
structure KbUpdateResult where
  applied : ℕ
  learnings : List (String × String × String)
  dry_run : Bool
  trace : List KbEvent
  final_content : String

/-- Embedding of `KnowledgeBaseUpdater.update_kb_with_learnings`.  The
input list stands for the database query result (approved, unapplied,
ordered by descending confidence); `kb0` is the document content on disk.
After the loop, when not a dry run and at least one learning applied, the
timestamped backup of the original document is written, then the updated
document. -/
noncomputable def update_kb_with_learnings (learnings : List LearningRow)
    (kb0 : String) (dry_run : Bool) : KbUpdateResult :=
  match learnings.foldl (kb_step dry_run) (kb0, 0, [], []) with
  | (kbF, n, ids, tr) =>
    { applied := n
      learnings := ids
      dry_run := dry_run
      trace := if ¬ dry_run ∧ 0 < n then tr ++ [KbEvent.writeBackup, KbEvent.writeMain] else tr
      final_content := kbF }

/- ------------------------------------------------------------------
   Spec-side definitions (for the refinement claims) and concrete inputs
   ------------------------------------------------------------------ -/

/-- The confidence formula as the spec states it: 0.6 times the size term
`min(90, 30 + 20 log10(n+1))` plus 0.4 times the mean over the actually
available sub-measures among the decisiveness `max(acceptance,
100-acceptance)`, the average rating rescaled from the 1-5 scale to 0-100,
and the helpful percentage; the result clamped to [0, 100]. -/
noncomputable def confidence_spec (n : ℕ) (acc : ℝ) (avg : Option ℝ)
    (helpful : ℝ) : ℝ :=
  let size_term := min 90 (30 + 20 * Real.logb 10 ((n : ℝ) + 1))
  let sub_measures : List ℝ :=
    [max acc (100 - acc)] ++ (avg.map (fun r => (r - 1) / 4 * 100)).toList ++ [helpful]
  let performance_term := sub_measures.sum / (sub_measures.length : ℝ)
  min 100 (max 0 (0.6 * size_term + 0.4 * performance_term))

/-- The recommendation policy as the spec states it: below confidence 60,
keep; at or above 60: acceptance above 80 upgrades, acceptance below 20
disables when dismissal is above 70 and otherwise downgrades; otherwise an
average rating of at least 4.0 upgrades and one below 2.0 downgrades; the
default is keep. -/
noncomputable def recommendation_spec (acc dism : ℝ) (avg : Option ℝ)
    (conf : ℝ) : String :=
  if conf < 60 then "keep"
  else if acc > 80 then "upgrade"
  else if acc < 20 then (if dism > 70 then "disable" else "downgrade")
  else
    match avg with
    | some r => if 4.0 ≤ r then "upgrade" else if r < 2.0 then "downgrade" else "keep"
    | none => "keep"

/-- The final lodging check-out the tight-timing rule compares against: the
parsed end time of the accommodation with the maximal end-time key. -/
def final_checkout (es : List Element) : Option ℤ :=
  match accommodations es, flights es with
  | a0 :: arest, _ :: _ => (maxByKey (fun a => a.end_time) a0 arest).end_time
  | _, _ => none

/-- The next departing flight after the final check-out: among the flights
with a parsed start time strictly after the check-out, the start time of
the one with the minimal start-time key. -/
def next_departure (es : List Element) : Option ℤ :=
  match accommodations es, flights es with
  | a0 :: arest, f0 :: frest =>
    match (maxByKey (fun a => a.end_time) a0 arest).end_time with
    | none => none
    | some c =>
      match (f0 :: frest).filter (fun f =>
          match f.start_time with
          | some s => decide (c < s)
          | none => false) with
      | [] => none
      | d0 :: drest => (minByKey (fun f => f.start_time) d0 drest).start_time
  | _, _ => none

/- Concrete inputs for the scenario claims and the witnesses. -/

/-- Checkout 2025-11-12T11:00, encoded as minutes from 2025-11-12T00:00. -/
def s9_hotel : Element := ⟨"h1", "accommodation", some "Hotel", none, some 660⟩

/-- Flight departing 2025-11-12T12:40 (minute 760 of the same day). -/
def s9_flight : Element := ⟨"f1", "flight", some "Flight", some 760, none⟩

/-- Checkout 2025-11-12T08:00 (minute 480). -/
def s9_hotel_early : Element := ⟨"h1", "accommodation", some "Hotel", none, some 480⟩

def scenario_tight : List Element := [s9_hotel, s9_flight]

def scenario_loose : List Element := [s9_hotel_early, s9_flight]

/-- A three-day trip, 2025-11-05 to 2025-11-08, in minutes from its start. -/
def c6_trip : Trip := ⟨some 0, some 4320⟩

/-- The missing-meals insight the detector emits for `c6_trip` with no
elements. -/
def c6_meals_insight : Insight :=
  { id := "missing_meals"
    type := "missing_element"
    severity := "info"
    title := "No dining reservations"
    description := "3-day trip with no restaurant reservations. Consider planning meals in advance."
    actions := [⟨"Add Dining", "add_element", [("type", "dining")]⟩, dismissAction] }

/-- One feedback row of the pattern-promotion scenario. -/
def c3row (rt : Option ℤ) (act : String) : Feedback :=
  ⟨"u1", "t1", "i1", "action_required", "accommodation_gap", act, none, none, rt, none⟩

/-- 100 feedback rows for `accommodation_gap`: 85 acted (25 rated 4, 25
rated 5, 35 unrated) and 15 dismissed, so 85 percent acted and the rated
rows average 4.5. -/
def c3_feedbacks : List Feedback :=
  List.replicate 25 (c3row (some 4) "acted") ++
  List.replicate 25 (c3row (some 5) "acted") ++
  List.replicate 35 (c3row none "acted") ++
  List.replicate 15 (c3row none "dismissed")

/-- An acted, helpful, unrated feedback row. -/
def c10row : Feedback :=
  ⟨"u1", "t1", "i1", "action_required", "accommodation_gap", "acted",
   some true, none, none, none⟩

/-- An acted, unrated feedback row with no flags. -/
def wrow : Feedback :=
  ⟨"u1", "t1", "i1", "action_required", "accommodation_gap", "acted",
   none, none, none, none⟩

/-- Evidence metrics of the knowledge-base-update example row. -/
def kb_pattern : Pattern :=
  { insight_category := "accommodation_gap"
    insight_type := "action_required"
    total_shown := 99
    total_dismissed := 0
    total_acted := 99
    total_rated := 2
    acceptance_rate := 100
    dismissal_rate := 0
    average_rating := some 4.5
    helpful_percentage := 100
    accurate_percentage := 0
    confidence_score := 82
    recommendation := "upgrade"
    auto_apply := true
    sample_size := 99 }

/-- An approved, unapplied learning row. -/
def kb_l1 : LearningRow :=
  { id := "L1"
    title := "Upgrade accommodation_gap to higher priority"
    category := "accommodation_gap"
    confidence_score := 82
    sample_size := 99
    description := "Users accept this insight."
    rule_yaml := "rule"
    created_at := some "2025-11-01"
    evidence_metrics := kb_pattern
    sample_comments := [] }

/-- A knowledge document containing the learning section marker. -/
def kb_doc : String := "# KB\n## LEARNING & IMPROVEMENT\nold text"

/- ------------------------------------------------------------------
   Helper lemmas
   ------------------------------------------------------------------ -/

lemma logb_10_100 : Real.logb 10 100 = 2 := by
  rw [show (100 : ℝ) = 10 ^ (2 : ℕ) by norm_num, Real.logb_pow,
    Real.logb_self_eq_one (by norm_num)]
  norm_num

lemma logb_10_101_ge : 2 ≤ Real.logb 10 101 := by
  rw [← logb_10_100]
  exact Real.logb_le_logb_of_le (by norm_num) (by norm_num) (by norm_num)

lemma logb_10_101_lt : Real.logb 10 101 < 12 / 5 := by
  have h10 : (0 : ℝ) < Real.log 10 := Real.log_pos (by norm_num)
  rw [Real.logb, div_lt_iff₀ h10]
  have h : Real.log ((101 : ℝ) ^ (5 : ℕ)) < Real.log ((10 : ℝ) ^ (12 : ℕ)) :=
    Real.log_lt_log (by positivity) (by norm_num)
  rw [Real.log_pow, Real.log_pow] at h
  push_cast at h
  linarith

lemma countP_replicate_eq (p : α → Bool) (a : α) (n : ℕ) :
    (List.replicate n a).countP p = if p a then n else 0 := by
  induction n with
  | zero => simp
  | succ n ih =>
    rw [List.replicate_succ, List.countP_cons, ih]
    by_cases h : p a <;> simp [h]

lemma filterMap_replicate_of_none (f : α → Option β) (a : α) (n : ℕ)
    (h : f a = none) : (List.replicate n a).filterMap f = [] := by
  induction n with
  | zero => simp
  | succ n ih => rw [List.replicate_succ, List.filterMap_cons, h, ih]

lemma filterMap_replicate_of_some (f : α → Option β) (a : α) (b : β) (n : ℕ)
    (h : f a = some b) : (List.replicate n a).filterMap f = List.replicate n b := by
  induction n with
  | zero => simp
  | succ n ih => rw [List.replicate_succ, List.filterMap_cons, h, ih, List.replicate_succ]

lemma round2_eq_self (x : ℝ) (k : ℤ) (h : x * 100 = (k : ℝ)) : round2 x = x := by
  have hfl : ⌊x * 100⌋ = k := by rw [h]; exact Int.floor_intCast k
  have hc : x * 100 - (⌊x * 100⌋ : ℝ) < 1 / 2 := by
    rw [hfl, ← h]
    norm_num
  unfold round2
  rw [if_pos hc, hfl]
  rw [← h]
  ring

lemma round2_le_add (x : ℝ) : round2 x ≤ x + 1 / 100 := by
  have h1 : (⌊x * 100⌋ : ℝ) ≤ x * 100 := Int.floor_le _
  have h2 : x * 100 < (⌊x * 100⌋ : ℝ) + 1 := Int.lt_floor_add_one _
  unfold round2
  split_ifs <;> linarith

lemma sub_le_round2 (x : ℝ) : x - 1 / 100 ≤ round2 x := by
  have h1 : (⌊x * 100⌋ : ℝ) ≤ x * 100 := Int.floor_le _
  have h2 : x * 100 < (⌊x * 100⌋ : ℝ) + 1 := Int.lt_floor_add_one _
  unfold round2
  split_ifs <;> linarith

lemma calculate_confidence_eq_spec (n : ℕ) (acc helpful : ℝ) (avg : Option ℝ) :
    calculate_confidence n (some acc) avg (some helpful) =
      confidence_spec n acc avg helpful := by
  cases avg with
  | none =>
    simp only [calculate_confidence, confidence_spec, Option.map_none, Option.toList,
      List.nil_append, List.append_nil, List.cons_append, List.isEmpty_cons,
      List.sum_cons, List.sum_nil, List.length_cons, List.length_nil]
    norm_num
    ring_nf
  | some r =>
    simp only [calculate_confidence, confidence_spec, Option.map_some, Option.toList,
      List.nil_append, List.append_nil, List.cons_append, List.isEmpty_cons,
      List.sum_cons, List.sum_nil, List.length_cons, List.length_nil]
    norm_num
    ring_nf

/- ------------------------------------------------------------------
   Claim theorems
   ------------------------------------------------------------------ -/

/-- C7: `analyze_itinerary` never raises past its boundary: with no
credential configured, or when the service call raises, or when the
service output is malformed (not JSON-parseable), it returns the Detector
output unchanged; and in every case the `action_required` list of the
result equals the Detector `action_required` list verbatim. -/
theorem analyze_itinerary_fallback :
    (∀ base, analyze_itinerary ServiceOutcome.noClient base = base) ∧
    (∀ base, analyze_itinerary ServiceOutcome.apiError base = base) ∧
    (∀ base, analyze_itinerary (ServiceOutcome.ok none) base = base) ∧
    (∀ outcome base, (analyze_itinerary outcome base).action_required =
      base.action_required) := by
  refine ⟨fun base => rfl, fun base => rfl, fun base => ?_, fun outcome base => ?_⟩
  · cases base
    simp [analyze_itinerary, merge_insights, parse_ai_response]
  · cases outcome <;> rfl

/-- C4: for every feedback sample, the confidence score equals 0.6 times
the size term `min(90, 30 + 20 log10(n+1))` plus 0.4 times the mean over
the actually available sub-measures among the decisiveness value, the
rescaled average rating and the helpful percentage, clamped to [0, 100]. -/
theorem confidence_formula_spec (fbs : List Feedback) :
    confidence_of fbs =
      confidence_spec fbs.length (acceptance_rate fbs) (average_rating fbs)
        (helpful_percentage fbs) :=
  calculate_confidence_eq_spec fbs.length (acceptance_rate fbs)
    (helpful_percentage fbs) (average_rating fbs)

/-- C5: every computed pattern follows the spec recommendation policy
(below confidence 60 keep; else acceptance above 80 upgrades, below 20
disables when dismissal is above 70 and otherwise downgrades, else the
rating thresholds apply, defaulting to keep), and `auto_apply` holds
exactly when the acceptance rate exceeds 80 and the confidence exceeds
80. -/
theorem recommendation_policy_spec (category : String) (fbs : List Feedback) :
    (calculate_pattern_metrics category fbs).recommendation =
      recommendation_spec (acceptance_rate fbs) (dismissal_rate fbs)
        (average_rating fbs) (confidence_of fbs) ∧
    ((calculate_pattern_metrics category fbs).auto_apply = true ↔
      acceptance_rate fbs > 80 ∧ confidence_of fbs > 80) := by
  constructor
  · rfl
  · simp [calculate_pattern_metrics]

lemma calculate_confidence_mono (n1 n2 : ℕ) (acc avg helpful : Option ℝ)
    (h : n1 ≤ n2) :
    calculate_confidence n1 acc avg helpful ≤ calculate_confidence n2 acc avg helpful := by
  have hcast : ((n1 : ℝ)) + 1 ≤ (n2 : ℝ) + 1 := by
    have : (n1 : ℝ) ≤ (n2 : ℝ) := Nat.cast_le.mpr h
    linarith
  have hlog : Real.logb 10 ((n1 : ℝ) + 1) ≤ Real.logb 10 ((n2 : ℝ) + 1) :=
    Real.logb_le_logb_of_le (by norm_num) (by positivity) hcast
  simp only [calculate_confidence]
  have hsize : min 90 (30 + 20 * Real.logb 10 ((n1 : ℝ) + 1)) ≤
      min 90 (30 + 20 * Real.logb 10 ((n2 : ℝ) + 1)) :=
    min_le_min le_rfl (by linarith)
  exact min_le_min le_rfl (max_le_max le_rfl (by nlinarith))

/-- C8: confidence is monotone in the sample: for every feedback set and
every subsample of it with the same acceptance rate, average rating and
helpful percentage, the confidence computed on the larger set is at least
the confidence computed on the subsample. -/
theorem confidence_monotone (fbs1 fbs2 : List Feedback)
    (hsub : List.Sublist fbs1 fbs2)
    (hacc : acceptance_rate fbs1 = acceptance_rate fbs2)
    (havg : average_rating fbs1 = average_rating fbs2)
    (hhelp : helpful_percentage fbs1 = helpful_percentage fbs2) :
    confidence_of fbs1 ≤ confidence_of fbs2 := by
  unfold confidence_of
  rw [hacc, havg, hhelp]
  exact calculate_confidence_mono _ _ _ _ _ hsub.length_le

/-- Closed instance of `confidence_monotone`: one acted row against two
copies of it (both samples have acceptance 100, no ratings and helpful
percentage 0). -/
theorem confidence_monotone_witness :
    (List.Sublist [wrow] [wrow, wrow] ∧
     acceptance_rate [wrow] = acceptance_rate [wrow, wrow] ∧
     average_rating [wrow] = average_rating [wrow, wrow] ∧
     helpful_percentage [wrow] = helpful_percentage [wrow, wrow]) ∧
    confidence_of [wrow] ≤ confidence_of [wrow, wrow] := by
  have hsub : List.Sublist [wrow] [wrow, wrow] :=
    List.Sublist.cons₂ wrow (List.nil_sublist [wrow])
  have hacc : acceptance_rate [wrow] = acceptance_rate [wrow, wrow] := by
    norm_num [acceptance_rate, total_acted, List.countP_cons, List.countP_nil, wrow]
  have havg : average_rating [wrow] = average_rating [wrow, wrow] := by
    simp [average_rating, ratings, wrow]
  have hhelp : helpful_percentage [wrow] = helpful_percentage [wrow, wrow] := by
    norm_num [helpful_percentage, helpful_count, List.countP_cons, List.countP_nil, wrow]
  exact ⟨⟨hsub, hacc, havg, hhelp⟩, confidence_monotone _ _ hsub hacc havg hhelp⟩

lemma sameKey_self (r : Feedback) : sameKey r r = true := by
  simp [sameKey]

lemma mem_upsertFeedback_self (r : Feedback) (s : List Feedback) :
    r ∈ upsertFeedback r s := by
  unfold upsertFeedback
  by_cases hany : s.any (sameKey r) = true
  · rw [if_pos hany]
    obtain ⟨y, hy, hys⟩ := List.any_eq_true.mp hany
    exact List.mem_map.mpr ⟨y, hy, by rw [if_pos hys]⟩
  · rw [if_neg hany]
    exact List.mem_append.mpr (Or.inr (List.mem_singleton_self r))

lemma upsertFeedback_fix (r : Feedback) (s : List Feedback) :
    ∀ x ∈ upsertFeedback r s, (if sameKey r x then r else x) = x := by
  intro x hx
  by_cases hsk : sameKey r x = true
  · rw [if_pos hsk]
    unfold upsertFeedback at hx
    by_cases hany : s.any (sameKey r) = true
    · rw [if_pos hany] at hx
      obtain ⟨y, hy, hyx⟩ := List.mem_map.mp hx
      by_cases hsy : sameKey r y = true
      · rw [if_pos hsy] at hyx
        exact hyx
      · rw [if_neg hsy] at hyx
        subst hyx
        exact absurd hsk hsy
    · rw [if_neg hany] at hx
      rcases List.mem_append.mp hx with hx1 | hx2
      · exfalso
        exact hany (List.any_eq_true.mpr ⟨x, hx1, hsk⟩)
      · exact (List.mem_singleton.mp hx2).symm
  · rw [if_neg hsk]

lemma upsertFeedback_idem (r : Feedback) (s : List Feedback) :
    upsertFeedback r (upsertFeedback r s) = upsertFeedback r s := by
  have hany1 : (upsertFeedback r s).any (sameKey r) = true :=
    List.any_eq_true.mpr ⟨r, mem_upsertFeedback_self r s, sameKey_self r⟩
  calc upsertFeedback r (upsertFeedback r s)
      = (upsertFeedback r s).map (fun x => if sameKey r x then r else x) := by
        conv_lhs => rw [upsertFeedback]
        rw [if_pos hany1]
    _ = (upsertFeedback r s).map id := List.map_congr_left (upsertFeedback_fix r s)
    _ = upsertFeedback r s := List.map_id _

lemma upsertFeedback_countP (r : Feedback) (s : List Feedback)
    (hkey : s.countP (sameKey r) ≤ 1) :
    (upsertFeedback r s).countP (sameKey r) = 1 := by
  unfold upsertFeedback
  by_cases hany : s.any (sameKey r) = true
  · rw [if_pos hany, List.countP_map]
    have hcomp : ∀ x ∈ s,
        ((sameKey r ∘ fun x => if sameKey r x then r else x) x = true ↔
          sameKey r x = true) := by
      intro x _
      simp only [Function.comp_apply]
      by_cases hsk : sameKey r x = true
      · rw [if_pos hsk, sameKey_self]
        simp [hsk]
      · rw [if_neg hsk]
    rw [List.countP_congr hcomp]
    obtain ⟨y, hy, hys⟩ := List.any_eq_true.mp hany
    have hpos : 0 < s.countP (sameKey r) := List.countP_pos_iff.mpr ⟨y, hy, hys⟩
    omega
  · rw [if_neg hany, List.countP_append]
    have h0 : s.countP (sameKey r) = 0 := by
      rw [List.countP_eq_zero]
      intro a ha hsa
      exact hany (List.any_eq_true.mpr ⟨a, ha, hsa⟩)
    rw [h0]
    simp [List.countP_cons, sameKey_self]

/-- C2: recording the same feedback twice with the same natural key and
payload leaves exactly one row in the store (provided the store held at
most one row for that key, the invariant the upsert maintains), and every
later pattern computation over the store counts that reaction once, not
twice. -/
theorem record_feedback_idempotent (r : Feedback) (s : List Feedback)
    (hkey : s.countP (sameKey r) ≤ 1) :
    record_feedback r (record_feedback r s) = record_feedback r s ∧
    (record_feedback r s).countP (sameKey r) = 1 ∧
    ∀ category,
      calculate_pattern_metrics category
        ((record_feedback r (record_feedback r s)).filter
          (fun f => f.insight_category == category)) =
      calculate_pattern_metrics category
        ((record_feedback r s).filter
          (fun f => f.insight_category == category)) := by
  refine ⟨upsertFeedback_idem r s, upsertFeedback_countP r s hkey, fun category => ?_⟩
  rw [show record_feedback r (record_feedback r s) = record_feedback r s from
    upsertFeedback_idem r s]

/-- Closed instance of `record_feedback_idempotent` on the empty store. -/
theorem record_feedback_idempotent_witness :
    (([] : List Feedback).countP (sameKey wrow) ≤ 1) ∧
    record_feedback wrow (record_feedback wrow []) = record_feedback wrow [] ∧
    (record_feedback wrow []).countP (sameKey wrow) = 1 := by
  have hkey : (([] : List Feedback)).countP (sameKey wrow) ≤ 1 := by simp
  obtain ⟨h1, h2, _⟩ := record_feedback_idempotent wrow [] hkey
  exact ⟨hkey, h1, h2⟩

/-- C10: a feedback set with zero rated records whose pattern reaches
confidence 70 and recommendation upgrade produces no Learning: the
average rating is null, formatting it raises, the exception is swallowed,
and the category silently yields no `kb_learnings` row. -/
theorem no_rating_upgrade_no_learning (category : String) (fbs : List Feedback)
    (hnr : ∀ f ∈ fbs, f.rating = none)
    (hconf : 70 ≤ (calculate_pattern_metrics category fbs).confidence_score)
    (hrec : (calculate_pattern_metrics category fbs).recommendation = "upgrade") :
    (analyze_category category fbs).2 = none := by
  have hrat : ratings fbs = [] := by
    simp only [ratings, List.filterMap_eq_nil_iff]
    exact hnr
  have havg : average_rating fbs = none := by simp [average_rating, hrat]
  have hpavg : (calculate_pattern_metrics category fbs).average_rating = none := by
    simp [calculate_pattern_metrics, havg]
  simp only [analyze_category]
  rw [if_pos hconf]
  unfold consider_kb_learning
  rw [if_neg (not_lt.mpr hconf), if_pos hrec, hpavg]

lemma c10_acc : acceptance_rate (List.replicate 99 c10row) = 100 := by
  norm_num [acceptance_rate, total_acted, countP_replicate_eq, c10row]

lemma c10_avg : average_rating (List.replicate 99 c10row) = none := by
  have h : ratings (List.replicate 99 c10row) = [] :=
    filterMap_replicate_of_none _ _ _ rfl
  unfold average_rating
  rw [h]
  rfl

lemma c10_help : helpful_percentage (List.replicate 99 c10row) = 100 := by
  norm_num [helpful_percentage, helpful_count, countP_replicate_eq, c10row]

lemma c10_conf : confidence_of (List.replicate 99 c10row) = 82 := by
  rw [confidence_of, c10_acc, c10_avg, c10_help, List.length_replicate]
  simp only [calculate_confidence]
  rw [show ((99 : ℕ) : ℝ) + 1 = 100 by norm_num, logb_10_100]
  norm_num

lemma c10_pattern_conf :
    (calculate_pattern_metrics "accommodation_gap"
      (List.replicate 99 c10row)).confidence_score = 82 := by
  show round2 (confidence_of (List.replicate 99 c10row)) = 82
  rw [c10_conf]
  exact round2_eq_self 82 8200 (by norm_num)

lemma c10_rec :
    (calculate_pattern_metrics "accommodation_gap"
      (List.replicate 99 c10row)).recommendation = "upgrade" := by
  show determine_recommendation (acceptance_rate (List.replicate 99 c10row))
    (dismissal_rate (List.replicate 99 c10row))
    (average_rating (List.replicate 99 c10row))
    (confidence_of (List.replicate 99 c10row)) = "upgrade"
  rw [c10_acc, c10_avg, c10_conf]
  unfold determine_recommendation
  rw [if_neg (by norm_num), if_pos (by norm_num)]

/-- Closed instance of `no_rating_upgrade_no_learning`: 99 acted, helpful,
unrated rows reach confidence 82 and recommendation upgrade, yet no
Learning row is produced. -/
theorem no_rating_upgrade_no_learning_witness :
    ((∀ f ∈ List.replicate 99 c10row, f.rating = none) ∧
     70 ≤ (calculate_pattern_metrics "accommodation_gap"
       (List.replicate 99 c10row)).confidence_score ∧
     (calculate_pattern_metrics "accommodation_gap"
       (List.replicate 99 c10row)).recommendation = "upgrade") ∧
    (analyze_category "accommodation_gap" (List.replicate 99 c10row)).2 = none := by
  have hnr : ∀ f ∈ List.replicate 99 c10row, f.rating = none := by
    intro f hf
    rw [List.eq_of_mem_replicate hf]
    rfl
  have hconf : 70 ≤ (calculate_pattern_metrics "accommodation_gap"
      (List.replicate 99 c10row)).confidence_score := by
    rw [c10_pattern_conf]
    norm_num
  exact ⟨⟨hnr, hconf, c10_rec⟩,
    no_rating_upgrade_no_learning _ _ hnr hconf c10_rec⟩

lemma c3_len : c3_feedbacks.length = 100 := by
  simp [c3_feedbacks]

lemma c3_acted : total_acted c3_feedbacks = 85 := by
  simp only [c3_feedbacks, total_acted, List.countP_append, countP_replicate_eq, c3row]
  decide

lemma c3_dismissed : total_dismissed c3_feedbacks = 15 := by
  simp only [c3_feedbacks, total_dismissed, List.countP_append, countP_replicate_eq, c3row]
  decide

lemma c3_ratings : ratings c3_feedbacks =
    List.replicate 25 (4 : ℤ) ++ List.replicate 25 (5 : ℤ) := by
  simp only [ratings, c3_feedbacks, List.filterMap_append]
  rw [filterMap_replicate_of_some (fun f => f.rating) (c3row (some 4) "acted") (4 : ℤ) 25 rfl,
    filterMap_replicate_of_some (fun f => f.rating) (c3row (some 5) "acted") (5 : ℤ) 25 rfl,
    filterMap_replicate_of_none (fun f => f.rating) (c3row none "acted") 35 rfl,
    filterMap_replicate_of_none (fun f => f.rating) (c3row none "dismissed") 15 rfl]
  simp

lemma c3_avg : average_rating c3_feedbacks = some 4.5 := by
  have hsum : (List.replicate 25 (4 : ℤ) ++ List.replicate 25 5).sum = 225 := by decide
  have hlen : (List.replicate 25 (4 : ℤ) ++ List.replicate 25 5).length = 50 := by decide
  have hne : (List.replicate 25 (4 : ℤ) ++ List.replicate 25 5).isEmpty = false := by decide
  unfold average_rating
  rw [c3_ratings, hne, hsum, hlen]
  norm_num

lemma c3_acc : acceptance_rate c3_feedbacks = 85 := by
  rw [acceptance_rate, c3_acted, c3_len]
  norm_num

lemma c3_dism : dismissal_rate c3_feedbacks = 15 := by
  rw [dismissal_rate, c3_dismissed, c3_len]
  norm_num

lemma c3_help : helpful_percentage c3_feedbacks = 0 := by
  norm_num [helpful_percentage, helpful_count, c3_feedbacks, List.countP_append,
    countP_replicate_eq, c3row, List.length_append]

lemma c3_conf_lb_ub : 65 ≤ confidence_of c3_feedbacks ∧ confidence_of c3_feedbacks < 69.9 := by
  have h2 := logb_10_101_ge
  have h3 := logb_10_101_lt
  have hS_lb : (70 : ℝ) ≤ min 90 (30 + 20 * Real.logb 10 101) :=
    le_min (by norm_num) (by linarith)
  have hS_ub : min 90 (30 + 20 * Real.logb 10 101) < 78 :=
    lt_of_le_of_lt (min_le_right _ _) (by linarith)
  have key : confidence_of c3_feedbacks =
      min 100 (max 0 ((min 90 (30 + 20 * Real.logb 10 101)) * 0.6 + 57.5 * 0.4)) := by
    rw [confidence_of, c3_acc, c3_avg, c3_help, c3_len]
    simp only [calculate_confidence]
    rw [show ((100 : ℕ) : ℝ) + 1 = 101 by norm_num]
    norm_num
  rw [key]
  have hin_lb : (65 : ℝ) ≤ (min 90 (30 + 20 * Real.logb 10 101)) * 0.6 + 57.5 * 0.4 := by
    nlinarith
  have hin_ub : (min 90 (30 + 20 * Real.logb 10 101)) * 0.6 + 57.5 * 0.4 < 69.9 := by
    nlinarith
  rw [max_eq_right (by linarith), min_eq_right (by linarith)]
  exact ⟨hin_lb, hin_ub⟩

lemma c3_pattern_conf_lb :
    60 ≤ (calculate_pattern_metrics "accommodation_gap" c3_feedbacks).confidence_score := by
  show 60 ≤ round2 (confidence_of c3_feedbacks)
  have h := sub_le_round2 (confidence_of c3_feedbacks)
  linarith [c3_conf_lb_ub.1]

lemma c3_pattern_conf_ub :
    (calculate_pattern_metrics "accommodation_gap" c3_feedbacks).confidence_score < 70 := by
  show round2 (confidence_of c3_feedbacks) < 70
  have h := round2_le_add (confidence_of c3_feedbacks)
  linarith [c3_conf_lb_ub.2]

lemma c3_rec :
    (calculate_pattern_metrics "accommodation_gap" c3_feedbacks).recommendation =
      "upgrade" := by
  show determine_recommendation (acceptance_rate c3_feedbacks)
    (dismissal_rate c3_feedbacks) (average_rating c3_feedbacks)
    (confidence_of c3_feedbacks) = "upgrade"
  rw [c3_acc]
  unfold determine_recommendation
  rw [if_neg (not_lt.mpr (by linarith [c3_conf_lb_ub.1] :
      (60 : ℝ) ≤ confidence_of c3_feedbacks)),
    if_pos (by norm_num : (85 : ℝ) > 80)]

lemma c3_auto :
    (calculate_pattern_metrics "accommodation_gap" c3_feedbacks).auto_apply = false := by
  show (decide (acceptance_rate c3_feedbacks > 80) &&
    decide (confidence_of c3_feedbacks > 80)) = false
  have h : ¬ (confidence_of c3_feedbacks > 80) := by linarith [c3_conf_lb_ub.2]
  simp [h]

lemma c3_learning : (analyze_category "accommodation_gap" c3_feedbacks).2 = none := by
  simp only [analyze_category]
  rw [if_neg (not_le.mpr c3_pattern_conf_ub)]

/-- C3 fails on the code: for 100 feedback rows with 85 percent acted and a
rated-row average of 4.5 (and no helpful flags, which the claim leaves
free), the pattern does recommend upgrade but its confidence score stays
below 70, so it never reaches 80, auto-apply is false, and no pending
Learning is created. -/
theorem pattern_promotion_counterexample :
    c3_feedbacks.length = 100 ∧
    total_acted c3_feedbacks = 85 ∧
    average_rating c3_feedbacks = some 4.5 ∧
    (calculate_pattern_metrics "accommodation_gap" c3_feedbacks).recommendation = "upgrade" ∧
    ¬ 80 ≤ (calculate_pattern_metrics "accommodation_gap" c3_feedbacks).confidence_score ∧
    (calculate_pattern_metrics "accommodation_gap" c3_feedbacks).auto_apply = false ∧
    (analyze_category "accommodation_gap" c3_feedbacks).2 = none :=
  ⟨c3_len, c3_acted, c3_avg, c3_rec,
    not_le.mpr (lt_of_lt_of_le c3_pattern_conf_ub (by norm_num)),
    c3_auto, c3_learning⟩

lemma gaps_severity (trip : Trip) (es : List Element) :
    ∀ i ∈ detect_accommodation_gaps trip es, i.severity = "critical" := by
  intro i hi
  simp only [detect_accommodation_gaps] at hi
  repeat' split at hi
  all_goals simp_all [List.mem_append]
  all_goals (rcases hi with rfl | rfl <;> rfl)

lemma conflicts_severity (es : List Element) :
    ∀ i ∈ detect_conflicting_primary_bookings es, i.severity = "critical" := by
  intro i hi
  simp only [detect_conflicting_primary_bookings, List.mem_append,
    List.mem_filterMap] at hi
  rcases hi with ⟨p, _, hpi⟩ | ⟨p, _, hpi⟩ <;> split at hpi <;> simp_all
  · exact hpi ▸ rfl
  · exact hpi ▸ rfl

lemma transport_severity (es : List Element) :
    ∀ i ∈ detect_missing_airport_transportation es, i.severity = "critical" := by
  intro i hi
  simp only [detect_missing_airport_transportation] at hi
  repeat' split at hi
  all_goals simp_all

lemma impossible_severity (es : List Element) :
    ∀ i ∈ detect_impossible_logistics es, i.severity = "critical" := by
  intro i hi
  simp only [detect_impossible_logistics] at hi
  repeat' split at hi
  all_goals try exact absurd hi (List.not_mem_nil i)
  simp only [List.mem_filterMap] at hi
  obtain ⟨el, _, hel⟩ := hi
  split at hel
  · split at hel
    · exact (Option.some.inj hel) ▸ rfl
    · exact absurd hel (by simp)
  · exact absurd hel (by simp)

lemma tight_severity (es : List Element) :
    ∀ i ∈ detect_tight_timing es, i.severity = "warning" := by
  intro i hi
  simp only [detect_tight_timing] at hi
  repeat' split at hi
  all_goals simp_all [tight_timing_insight]

lemma meals_severity (trip : Trip) (es : List Element) :
    ∀ i ∈ detect_missing_meals trip es, i.severity = "info" := by
  intro i hi
  simp only [detect_missing_meals] at hi
  repeat' split at hi
  all_goals simp_all

/-- C6 amended: every insight in `action_required` has severity critical
and every insight in `good_to_know` has severity info, but an insight in
`recommendations` has severity warning or info (tight timing is warning,
missing meals is info). -/
theorem severity_buckets (trip : Trip) (es : List Element) :
    (∀ i ∈ (analyze trip es).action_required, i.severity = "critical") ∧
    (∀ i ∈ (analyze trip es).recommendations,
      i.severity = "warning" ∨ i.severity = "info") ∧
    (∀ i ∈ (analyze trip es).good_to_know, i.severity = "info") := by
  refine ⟨?_, ?_, ?_⟩
  · intro i hi
    simp only [analyze, List.mem_append] at hi
    rcases hi with ((h | h) | h) | h
    · exact gaps_severity trip es i h
    · exact conflicts_severity es i h
    · exact transport_severity es i h
    · exact impossible_severity es i h
  · intro i hi
    simp only [analyze, List.mem_append] at hi
    rcases hi with h | h
    · exact Or.inl (tight_severity es i h)
    · exact Or.inr (meals_severity trip es i h)
  · intro i hi
    exact absurd hi (List.not_mem_nil i)

/-- C6 fails on the code as stated: for a three-day trip with no elements,
the single insight in the `recommendations` bucket (missing meals) carries
severity info, not warning. -/
theorem severity_bucket_counterexample :
    ((analyze c6_trip []).recommendations.map (fun i => i.severity)) = ["info"] ∧
    ("info" : String) ≠ "warning" := by
  constructor
  · rfl
  · decide

/-- Closed instance of `severity_buckets` at the three-day no-element trip:
the detector places the missing-meals insight in `recommendations`, and the
theorem yields its severity is warning or info. -/
theorem severity_buckets_witness :
    (c6_meals_insight ∈ (analyze c6_trip []).recommendations) ∧
    (c6_meals_insight.severity = "warning" ∨ c6_meals_insight.severity = "info") := by
  have hmem : c6_meals_insight ∈ (analyze c6_trip []).recommendations := by
    have h : (analyze c6_trip []).recommendations = [c6_meals_insight] := by rfl
    rw [h]
    exact List.mem_singleton_self _
  exact ⟨hmem, (severity_buckets c6_trip []).2.1 c6_meals_insight hmem⟩

/-- C3 amended: for that input (with no helpful flags) the pattern has
recommendation upgrade and a confidence score between 60 and 70; hence
auto-apply is false and no Learning row is inserted, since the learning
gate requires confidence at least 70. -/
theorem pattern_promotion_scenario :
    (calculate_pattern_metrics "accommodation_gap" c3_feedbacks).recommendation = "upgrade" ∧
    60 ≤ (calculate_pattern_metrics "accommodation_gap" c3_feedbacks).confidence_score ∧
    (calculate_pattern_metrics "accommodation_gap" c3_feedbacks).confidence_score < 70 ∧
    (calculate_pattern_metrics "accommodation_gap" c3_feedbacks).auto_apply = false ∧
    (analyze_category "accommodation_gap" c3_feedbacks).2 = none :=
  ⟨c3_rec, c3_pattern_conf_lb, c3_pattern_conf_ub, c3_auto, c3_learning⟩

lemma accs_scenario_tight : accommodations scenario_tight = [s9_hotel] := by
  simp [accommodations, scenario_tight, s9_hotel, s9_flight]

lemma flights_scenario_tight : flights scenario_tight = [s9_flight] := by
  simp [flights, scenario_tight, s9_hotel, s9_flight]

lemma accs_scenario_loose : accommodations scenario_loose = [s9_hotel_early] := by
  simp [accommodations, scenario_loose, s9_hotel_early, s9_flight]

lemma flights_scenario_loose : flights scenario_loose = [s9_flight] := by
  simp [flights, scenario_loose, s9_hotel_early, s9_flight]

lemma detect_tight_scenario_tight :
    detect_tight_timing scenario_tight = [tight_timing_insight s9_hotel 660 760] := by
  simp only [detect_tight_timing, accs_scenario_tight, flights_scenario_tight,
    maxByKey, minByKey, List.foldl_nil, s9_hotel, s9_flight,
    List.filter_cons, List.filter_nil]
  norm_num

lemma detect_tight_scenario_loose : detect_tight_timing scenario_loose = [] := by
  simp only [detect_tight_timing, accs_scenario_loose, flights_scenario_loose,
    maxByKey, minByKey, List.foldl_nil, s9_hotel_early, s9_flight,
    List.filter_cons, List.filter_nil]
  norm_num

/-- C9: the tight-timing rule fires a single warning insight exactly when
the gap between the final lodging check-out and the next departing flight
is strictly between 1 and 3 hours; in particular, checkout at minute 660
(11:00) with a flight at minute 760 (12:40) yields exactly one warning
tight-timing insight, and checkout at minute 480 (08:00) with the same
flight yields none. -/
theorem tight_timing_rule :
    (∀ (es : List Element) (c ft : ℤ),
      final_checkout es = some c →
      next_departure es = some ft →
      ((detect_tight_timing es).map (fun i => (i.type, i.severity))) =
        (if 1 < ((ft - c : ℤ) : ℚ) / 60 ∧ ((ft - c : ℤ) : ℚ) / 60 < 3
         then [("tight_timing", "warning")] else [])) ∧
    ((detect_tight_timing scenario_tight).map (fun i => (i.type, i.severity)) =
      [("tight_timing", "warning")]) ∧
    detect_tight_timing scenario_loose = [] := by
  refine ⟨?_, ?_, ?_⟩
  · intro es c ft h1 h2
    unfold final_checkout at h1
    unfold next_departure at h2
    unfold detect_tight_timing
    rcases hacc : accommodations es with _ | ⟨a0, arest⟩
    · rcases hfl : flights es with _ | ⟨f0, frest⟩ <;> rw [hacc, hfl] at h1 <;> simp at h1
    · rcases hfl : flights es with _ | ⟨f0, frest⟩
      · rw [hacc, hfl] at h1
        simp at h1
      · rw [hacc, hfl] at h1 h2
        simp only [] at h1 h2 ⊢
        rw [h1] at h2 ⊢
        simp only [] at h2 ⊢
        rcases hdf : (f0 :: frest).filter (fun f =>
            match f.start_time with
            | some s => decide (c < s)
            | none => false) with _ | ⟨d0, drest⟩
        · rw [hdf] at h2
          simp at h2
        · rw [hdf] at h2 ⊢
          simp only [] at h2 ⊢
          rw [h2]
          simp only []
          split <;> simp [tight_timing_insight]
  · rw [detect_tight_scenario_tight]
    simp [tight_timing_insight]
  · exact detect_tight_scenario_loose

/-- Closed instance of the tight-timing rule at the 11:00 checkout and
12:40 flight scenario. -/
theorem tight_timing_rule_witness :
    (final_checkout scenario_tight = some 660 ∧
     next_departure scenario_tight = some 760) ∧
    ((detect_tight_timing scenario_tight).map (fun i => (i.type, i.severity)) =
      (if 1 < ((760 - 660 : ℤ) : ℚ) / 60 ∧ ((760 - 660 : ℤ) : ℚ) / 60 < 3
       then [("tight_timing", "warning")] else [])) :=
  ⟨⟨rfl, rfl⟩, tight_timing_rule.1 scenario_tight 660 760 rfl rfl⟩

lemma kb_fold_trace (ls : List LearningRow) :
    ∀ st : String × ℕ × List (String × String × String) × List KbEvent,
      st.2.2.2 = st.2.2.1.map (fun e => KbEvent.markApplied e.1) →
      (ls.foldl (kb_step false) st).2.2.2 =
        (ls.foldl (kb_step false) st).2.2.1.map (fun e => KbEvent.markApplied e.1) := by
  induction ls with
  | nil => exact fun st h => h
  | cons l ls ih =>
    intro st h
    rw [List.foldl_cons]
    apply ih
    rcases st with ⟨kb, n, ids, tr⟩
    simp only [kb_step]
    split
    · simp only [] at h
      simp [h]
    · exact h

/-- C1 amended: with dry run off, each learning whose section insertion
succeeds is marked applied immediately, inside the per-learning loop, and
only after the loop are the backup and the updated document written: the
trace is all the `markApplied` events, in order, followed by the backup
write and the main write.  Consequently, if the main document write fails
after the backup succeeded, every applied learning has already been marked
applied. -/
theorem update_kb_event_order (learnings : List LearningRow) (kb0 : String)
    (h : 0 < (update_kb_with_learnings learnings kb0 false).applied) :
    (update_kb_with_learnings learnings kb0 false).trace =
      ((update_kb_with_learnings learnings kb0 false).learnings.map
        (fun e => KbEvent.markApplied e.1)) ++
        [KbEvent.writeBackup, KbEvent.writeMain] := by
  have hinv := kb_fold_trace learnings (kb0, 0, [], []) rfl
  unfold update_kb_with_learnings at h ⊢
  rcases hfold : learnings.foldl (kb_step false) (kb0, 0, [], []) with ⟨kbF, n, ids, tr⟩
  rw [hfold] at h hinv
  simp only [] at h hinv ⊢
  rw [if_pos ⟨by simp, h⟩, hinv]

/-- C1 fails on the code as stated: applying a single approved learning to
a document containing the section marker produces the database-mark event
before the backup and main writes, not after them. -/
theorem update_kb_marks_before_backup :
    (update_kb_with_learnings [kb_l1] kb_doc false).trace =
      [KbEvent.markApplied "L1", KbEvent.writeBackup, KbEvent.writeMain] ∧
    (update_kb_with_learnings [kb_l1] kb_doc false).trace ≠
      [KbEvent.writeBackup, KbEvent.writeMain, KbEvent.markApplied "L1"] := by
  have htr : (update_kb_with_learnings [kb_l1] kb_doc false).trace =
      [KbEvent.markApplied "L1", KbEvent.writeBackup, KbEvent.writeMain] := by rfl
  refine ⟨htr, ?_⟩
  rw [htr]
  intro hcontra
  simp at hcontra

/-- Closed instance of `update_kb_event_order` at the one-learning
example. -/
theorem update_kb_event_order_witness :
    0 < (update_kb_with_learnings [kb_l1] kb_doc false).applied ∧
    (update_kb_with_learnings [kb_l1] kb_doc false).trace =
      ((update_kb_with_learnings [kb_l1] kb_doc false).learnings.map
        (fun e => KbEvent.markApplied e.1)) ++
        [KbEvent.writeBackup, KbEvent.writeMain] := by
  have h : 0 < (update_kb_with_learnings [kb_l1] kb_doc false).applied := by
    rw [show (update_kb_with_learnings [kb_l1] kb_doc false).applied = 1 from rfl]
    norm_num
  exact ⟨h, update_kb_event_order [kb_l1] kb_doc h⟩

end Talon
